import Mathlib

/-!
Verification of the craftric-crm core: the permission engine
(PermissionsContext), the entity state manager and the lead-to-customer
conversion workflow (DataContext).  All definitions are shallow embeddings
of the TypeScript source; machine state (the six collections and the
shared error slot) is passed explicitly, remote-store responses are
passed as `Except`-valued parameters.
-/

set_option autoImplicit false

namespace Craftric

/-! ## Data model (src/app/types.ts) -/

inductive Role where
  | admin
  | sales
  | manager
deriving DecidableEq

inductive CustomerStatus where
  | active
  | inactive
  | pending
deriving DecidableEq

inductive LeadStatus where
  | new
  | contacted
  | qualified
  | lost
  | converted
deriving DecidableEq

inductive ObjectType where
  | customers
  | contacts
  | products
  | models
  | leads
  | users
deriving DecidableEq

structure User where
  id : String
  name : String
  email : String
  role : Role
  createdAt : String
  lastModifiedBy : Option String := none
  lastModifiedAt : Option String := none
deriving DecidableEq

structure Customer where
  id : String
  name : String
  status : CustomerStatus
  leadId : Option String
  createdAt : String
  lastModifiedBy : Option String := none
  lastModifiedAt : Option String := none
deriving DecidableEq

structure Contact where
  id : String
  customerId : String
  name : String
  email : String
  phone : String
  role : String
  lastModifiedBy : Option String := none
  lastModifiedAt : Option String := none
deriving DecidableEq

structure Product where
  id : String
  name : String
  description : String
  category : String
  createdAt : String
  lastModifiedBy : Option String := none
  lastModifiedAt : Option String := none
deriving DecidableEq

structure Model where
  id : String
  productId : String
  name : String
  sku : String
  stock : Nat
  price : Int
  lastModifiedBy : Option String := none
  lastModifiedAt : Option String := none
deriving DecidableEq

structure Lead where
  id : String
  name : String
  email : String
  phone : String
  company : String
  status : LeadStatus
  source : String
  value : Int
  createdAt : String
  createdBy : String
  lastModifiedBy : Option String := none
  lastModifiedAt : Option String := none
deriving DecidableEq

/-! ## Permission engine (src/app/context/PermissionsContext.tsx)

The stored permission table comes from `localStorage` JSON, so a stored
override may miss fields; `StoredPerms` models such a possibly-missing-field
record.  The engine merges it onto `defaultPermissions` via object spread. -/

structure ObjectPermissions where
  read : Bool
  edit : Bool
  delete : Bool
deriving DecidableEq

/-- A stored override record as read back from JSON: each field may be
absent (JS object spread then leaves the default in place). -/
structure StoredPerms where
  read? : Option Bool := none
  edit? : Option Bool := none
  delete? : Option Bool := none
deriving DecidableEq

/-- `defaultPermissions = { read: true, edit: false, delete: false }`. -/
def defaultPermissions : ObjectPermissions :=
  { read := true, edit := false, delete := false }

/-- JS spread `{ ...base, ...p }`: fields present in `p` win. -/
def spreadPerms (base : ObjectPermissions) (p : StoredPerms) : ObjectPermissions :=
  { read := p.read?.getD base.read
    edit := p.edit?.getD base.edit
    delete := p.delete?.getD base.delete }

/-- A fully-populated record viewed as a stored one (all fields present). -/
def ObjectPermissions.toStored (o : ObjectPermissions) : StoredPerms :=
  { read? := some o.read, edit? := some o.edit, delete? := some o.delete }

/-- JS object maps, embedded as association lists keyed by exact equality. -/
def lookupAssoc {κ α : Type} [DecidableEq κ] : List (κ × α) → κ → Option α
  | [], _ => none
  | (k', v) :: rest, k => if k' = k then some v else lookupAssoc rest k

def setAssoc {κ α : Type} [DecidableEq κ] : List (κ × α) → κ → α → List (κ × α)
  | [], k, v => [(k, v)]
  | (k', v') :: rest, k, v =>
      if k' = k then (k, v) :: rest else (k', v') :: setAssoc rest k v

/-- `UserPermissionsMap = Record<string, Record<ObjectType, ObjectPermissions>>`. -/
abbrev PermTable := List (ObjectType × StoredPerms)

abbrev UserPermissionsMap := List (String × PermTable)

/-- `isAdmin = currentUser?.role === 'admin'`. -/
def isAdmin (currentUser : Option User) : Bool :=
  match currentUser with
  | some u => decide (u.role = Role.admin)
  | none => false

/-- `getUserPermissions(userId, objectType)`: looks up the user's table and
the per-object override; when found returns
`{ ...defaultPermissions, ...objPerms }`, otherwise `defaultPermissions`. -/
def getUserPermissions (m : UserPermissionsMap) (userId : String)
    (objectType : ObjectType) : ObjectPermissions :=
  match lookupAssoc m userId with
  | none => defaultPermissions
  | some userPerms =>
    match lookupAssoc userPerms objectType with
    | none => defaultPermissions
    | some objPerms => spreadPerms defaultPermissions objPerms

/-- `updateUserPermissions(userId, objectType, perms)`: no-op unless the
acting user is admin; otherwise stores
`{ ...defaultPermissions, ...next[userId][objectType], ...perms }` at the
(possibly freshly created) slot for this user and object type. -/
def updateUserPermissions (currentUser : Option User) (m : UserPermissionsMap)
    (userId : String) (objectType : ObjectType) (perms : StoredPerms) :
    UserPermissionsMap :=
  if isAdmin currentUser then
    let userTable := (lookupAssoc m userId).getD []
    let stored := (lookupAssoc userTable objectType).getD {}
    let merged := spreadPerms (spreadPerms defaultPermissions stored) perms
    setAssoc m userId (setAssoc userTable objectType merged.toStored)
  else m

/-- `canRead(objectType)` for the current session. -/
def canRead (currentUser : Option User) (m : UserPermissionsMap)
    (objectType : ObjectType) : Bool :=
  match currentUser with
  | none => false
  | some u => if isAdmin (some u) then true else (getUserPermissions m u.id objectType).read

/-- `canEdit(objectType)` for the current session. -/
def canEdit (currentUser : Option User) (m : UserPermissionsMap)
    (objectType : ObjectType) : Bool :=
  match currentUser with
  | none => false
  | some u => if isAdmin (some u) then true else (getUserPermissions m u.id objectType).edit

/-- `canDelete(objectType)` for the current session. -/
def canDelete (currentUser : Option User) (m : UserPermissionsMap)
    (objectType : ObjectType) : Bool :=
  match currentUser with
  | none => false
  | some u => if isAdmin (some u) then true else (getUserPermissions m u.id objectType).delete

/-- `canAdd(objectType)` is defined in the source as `canEdit(objectType)`. -/
def canAdd (currentUser : Option User) (m : UserPermissionsMap)
    (objectType : ObjectType) : Bool :=
  canEdit currentUser m objectType

/-- `canManagePermissions() = isAdmin`. -/
def canManagePermissions (currentUser : Option User) : Bool :=
  isAdmin currentUser

/-- The stored override for the pair (userId, objectType), if any:
`permissionsMap[userId]?.[objectType]`. -/
def storedOverride (m : UserPermissionsMap) (userId : String)
    (objectType : ObjectType) : Option StoredPerms :=
  match lookupAssoc m userId with
  | none => none
  | some t => lookupAssoc t objectType

/-- Whether an override is stored for the pair (userId, objectType). -/
def hasStoredOverride (m : UserPermissionsMap) (userId : String)
    (objectType : ObjectType) : Bool :=
  (storedOverride m userId objectType).isSome

/-! ## Entity state manager (src/app/context/DataContext.tsx)

State: the five entity collections plus the shared error slot (`error`).
Local ("mock") mode corresponds to `isXanoEnabled() === false`; remote mode
takes store responses as explicit `Except`-valued parameters.  `Env`
supplies what the component reads from its environment: `Date.now()`
(`nowMs`), `new Date().toISOString()` (`nowIso`) and `currentUser?.id`. -/

structure DataState where
  customers : List Customer
  contacts : List Contact
  products : List Product
  models : List Model
  leads : List Lead
  error : Option String
deriving DecidableEq

structure Env where
  nowMs : Nat
  nowIso : String
  currentUserId : Option String
deriving DecidableEq

/-- The characters of a string before the first T separator. -/
def takeUntilT : List Char → List Char
  | [] => []
  | c :: rest => if c = 'T' then [] else c :: takeUntilT rest

/-- `ts.split('T')[0]`: the date part of an ISO timestamp — the longest
prefix before the first T (the whole string when no T occurs). -/
def dateOnly (ts : String) : String :=
  String.mk (takeUntilT ts.data)

/-- `Partial<Lead>` restricted to the mutable business fields; absent
fields leave the record untouched in the object-spread merge. -/
structure LeadUpdate where
  name? : Option String := none
  email? : Option String := none
  phone? : Option String := none
  company? : Option String := none
  status? : Option LeadStatus := none
  source? : Option String := none
  value? : Option Int := none
deriving DecidableEq

/-- `{ ...l, ...updates, lastModifiedBy: currentUser?.id, lastModifiedAt: ts }`. -/
def applyLeadUpdate (currentUserId : Option String) (ts : String)
    (l : Lead) (u : LeadUpdate) : Lead :=
  { id := l.id
    name := u.name?.getD l.name
    email := u.email?.getD l.email
    phone := u.phone?.getD l.phone
    company := u.company?.getD l.company
    status := u.status?.getD l.status
    source := u.source?.getD l.source
    value := u.value?.getD l.value
    createdAt := l.createdAt
    createdBy := l.createdBy
    lastModifiedBy := currentUserId
    lastModifiedAt := some ts }

/-- `customers.some((c) => c.leadId === id)`. -/
def isLinkedToCustomer (s : DataState) (id : String) : Bool :=
  s.customers.any fun c => decide (c.leadId = some id)

/-- Local-mode `updateLead(id, updates)`: when the lead exists, the update
carries `status: 'converted'` and no customer references the lead yet,
appends the derived Customer and Contact; in every case merges the update
onto the matching lead. -/
def updateLead_local (env : Env) (s : DataState) (id : String)
    (u : LeadUpdate) : DataState :=
  let ts := env.nowIso
  let lead? := s.leads.find? fun l => decide (l.id = id)
  let alreadyConverted := isLinkedToCustomer s id
  let s1 :=
    match lead? with
    | some lead =>
      if u.status? = some LeadStatus.converted ∧ alreadyConverted = false then
        let newCustomer : Customer :=
          { id := toString env.nowMs
            name := lead.company
            status := CustomerStatus.active
            leadId := some lead.id
            createdAt := dateOnly ts
            lastModifiedBy := env.currentUserId
            lastModifiedAt := some ts }
        let newContact : Contact :=
          { id := toString (env.nowMs + 1)
            customerId := newCustomer.id
            name := lead.name
            email := lead.email
            phone := lead.phone
            role := "Primary Contact"
            lastModifiedBy := env.currentUserId
            lastModifiedAt := some ts }
        { s with customers := s.customers ++ [newCustomer]
                 contacts := s.contacts ++ [newContact] }
      else s
    | none => s
  { s1 with leads := s1.leads.map fun l =>
      if l.id = id then applyLeadUpdate env.currentUserId ts l u else l }

/-- `deleteLead(id)`: referential protection, then local-mode removal.
Returns the new state and the boolean result. -/
def deleteLead_local (s : DataState) (id : String) : DataState × Bool :=
  if isLinkedToCustomer s id then
    ({ s with error := some "Cannot delete lead: it is linked to an existing customer" }, false)
  else
    ({ s with leads := s.leads.filter fun l => !decide (l.id = id) }, true)

/-- Local-mode `deleteCustomer(id)`: removes the customer and cascades
removal of its contacts. -/
def deleteCustomer_local (s : DataState) (id : String) : DataState :=
  { s with customers := s.customers.filter fun c => !decide (c.id = id)
           contacts := s.contacts.filter fun c => !decide (c.customerId = id) }

/-- Local-mode `deleteProduct(id)`: removes the product and cascades
removal of its models (the source compares `String(x)` values; ids are
already strings here). -/
def deleteProduct_local (s : DataState) (id : String) : DataState :=
  { s with products := s.products.filter fun p => !decide (p.id = id)
           models := s.models.filter fun m => !decide (m.productId = id) }

/-! ## Remote ("Xano") mode

Each remote call's outcome is a parameter: `Except.error m` models the
call throwing with message `m` (the value `catch` sees), `Except.ok v`
a resolved call returning `v`, where `none` stands for a null/invalid
response record.  A JS truthiness test `x.id` on a string id is modelled
as the id being nonempty. -/

/-- The five collections as fetched by `fetchAll`. -/
structure Collections where
  customers : List Customer
  contacts : List Contact
  products : List Product
  models : List Model
  leads : List Lead
deriving DecidableEq

/-- `fetchAll()`: clears the error slot, then on success replaces all five
collections; its own `catch` records the fetch error (it never rejects). -/
def fetchAll_remote (s : DataState) (resp : Except String Collections) :
    DataState :=
  match resp with
  | Except.ok c =>
      { customers := c.customers, contacts := c.contacts, products := c.products
        models := c.models, leads := c.leads, error := none }
  | Except.error m => { s with error := some m }

/-- Remote `addCustomer`: on a returned record with a truthy id, append it;
otherwise refetch; a thrown error is recorded in the error slot. -/
def addCustomer_remote (s : DataState) (resp : Except String (Option Customer))
    (refetch : Except String Collections) : DataState :=
  match resp with
  | Except.error m => { s with error := some m }
  | Except.ok (some created) =>
      if created.id ≠ "" then { s with customers := s.customers ++ [created] }
      else fetchAll_remote s refetch
  | Except.ok none => fetchAll_remote s refetch

/-- Remote `updateCustomer`: replaces the matching record with the store's
returned record when one comes back. -/
def updateCustomer_remote (s : DataState) (id : String)
    (resp : Except String (Option Customer)) : DataState :=
  match resp with
  | Except.error m => { s with error := some m }
  | Except.ok (some updated) =>
      { s with customers := s.customers.map fun c =>
          if c.id = id then updated else c }
  | Except.ok none => s

/-- Remote `deleteCustomer`: the remote delete must succeed before the
cascade is applied locally. -/
def deleteCustomer_remote (s : DataState) (id : String)
    (resp : Except String Unit) : DataState :=
  match resp with
  | Except.error m => { s with error := some m }
  | Except.ok _ =>
      { s with customers := s.customers.filter fun c => !decide (c.id = id)
               contacts := s.contacts.filter fun c => !decide (c.customerId = id) }

/-- Remote `addContact`: appends only when the returned record has a truthy
id and the same customerId as the request; otherwise refetches. -/
def addContact_remote (s : DataState) (inputCustomerId : String)
    (resp : Except String (Option Contact))
    (refetch : Except String Collections) : DataState :=
  match resp with
  | Except.error m => { s with error := some m }
  | Except.ok (some created) =>
      if created.id ≠ "" ∧ created.customerId = inputCustomerId then
        { s with contacts := s.contacts ++ [created] }
      else fetchAll_remote s refetch
  | Except.ok none => fetchAll_remote s refetch

/-- Remote `updateContact`. -/
def updateContact_remote (s : DataState) (id : String)
    (resp : Except String (Option Contact)) : DataState :=
  match resp with
  | Except.error m => { s with error := some m }
  | Except.ok (some updated) =>
      { s with contacts := s.contacts.map fun c =>
          if c.id = id then updated else c }
  | Except.ok none => s

/-- Remote `deleteContact`. -/
def deleteContact_remote (s : DataState) (id : String)
    (resp : Except String Unit) : DataState :=
  match resp with
  | Except.error m => { s with error := some m }
  | Except.ok _ =>
      { s with contacts := s.contacts.filter fun c => !decide (c.id = id) }

/-- Remote `addProduct`. -/
def addProduct_remote (s : DataState) (resp : Except String (Option Product))
    (refetch : Except String Collections) : DataState :=
  match resp with
  | Except.error m => { s with error := some m }
  | Except.ok (some created) =>
      if created.id ≠ "" then { s with products := s.products ++ [created] }
      else fetchAll_remote s refetch
  | Except.ok none => fetchAll_remote s refetch

/-- Remote `updateProduct`. -/
def updateProduct_remote (s : DataState) (id : String)
    (resp : Except String (Option Product)) : DataState :=
  match resp with
  | Except.error m => { s with error := some m }
  | Except.ok (some updated) =>
      { s with products := s.products.map fun p =>
          if p.id = id then updated else p }
  | Except.ok none => s

/-- Remote `deleteProduct`: remote delete, then the same cascade as local. -/
def deleteProduct_remote (s : DataState) (id : String)
    (resp : Except String Unit) : DataState :=
  match resp with
  | Except.error m => { s with error := some m }
  | Except.ok _ =>
      { s with products := s.products.filter fun p => !decide (p.id = id)
               models := s.models.filter fun m => !decide (m.productId = id) }

/-- Remote `addModel`. -/
def addModel_remote (s : DataState) (resp : Except String (Option Model))
    (refetch : Except String Collections) : DataState :=
  match resp with
  | Except.error m => { s with error := some m }
  | Except.ok (some created) =>
      if created.id ≠ "" then { s with models := s.models ++ [created] }
      else fetchAll_remote s refetch
  | Except.ok none => fetchAll_remote s refetch

/-- Remote `updateModel`. -/
def updateModel_remote (s : DataState) (id : String)
    (resp : Except String (Option Model)) : DataState :=
  match resp with
  | Except.error m => { s with error := some m }
  | Except.ok (some updated) =>
      { s with models := s.models.map fun m =>
          if m.id = id then updated else m }
  | Except.ok none => s

/-- Remote `deleteModel`. -/
def deleteModel_remote (s : DataState) (id : String)
    (resp : Except String Unit) : DataState :=
  match resp with
  | Except.error m => { s with error := some m }
  | Except.ok _ =>
      { s with models := s.models.filter fun m => !decide (m.id = id) }

/-- Remote `addLead`: `if (created) setLeads([...prev, created])`; no
refetch fallback and no id check in the source. -/
def addLead_remote (s : DataState) (resp : Except String (Option Lead)) :
    DataState :=
  match resp with
  | Except.error m => { s with error := some m }
  | Except.ok (some created) => { s with leads := s.leads ++ [created] }
  | Except.ok none => s

/-- Remote `updateLead`: one try/catch around the whole sequence — the lead
update call, the Neon refetch, and (non-Neon) the client-side conversion
cascade of up to two create calls.  The closure reads `leads` and
`customers` as captured at call time (`s`), while the setters apply to the
then-current state. -/
def updateLead_remote (s : DataState) (id : String) (u : LeadUpdate)
    (neon : Bool) (updResp : Except String (Option Lead))
    (refetch : Except String Collections)
    (custResp : Except String (Option Customer))
    (contResp : Except String (Option Contact)) : DataState :=
  match updResp with
  | Except.error m => { s with error := some m }
  | Except.ok upd? =>
    let s1 :=
      match upd? with
      | some updated =>
          { s with leads := s.leads.map fun l => if l.id = id then updated else l }
      | none => s
    let s2 :=
      if u.status? = some LeadStatus.converted ∧ neon = true then
        fetchAll_remote s1 refetch
      else s1
    if neon then s2
    else
      match s.leads.find? fun l => decide (l.id = id) with
      | none => s2
      | some _ =>
        if u.status? = some LeadStatus.converted ∧ isLinkedToCustomer s id = false then
          match custResp with
          | Except.error m => { s2 with error := some m }
          | Except.ok none => s2
          | Except.ok (some cust) =>
            if cust.id ≠ "" then
              let s3 := { s2 with customers := s2.customers ++ [cust] }
              match contResp with
              | Except.error m => { s3 with error := some m }
              | Except.ok none => s3
              | Except.ok (some c) =>
                  if c.id ≠ "" then { s3 with contacts := s3.contacts ++ [c] }
                  else s3
            else s2
        else s2

/-- Remote `deleteLead`: referential protection first, then the remote
delete; the local removal only happens when the remote delete succeeded. -/
def deleteLead_remote (s : DataState) (id : String)
    (resp : Except String Unit) : DataState × Bool :=
  if isLinkedToCustomer s id then
    ({ s with error := some "Cannot delete lead: it is linked to an existing customer" }, false)
  else
    match resp with
    | Except.error m => ({ s with error := some m }, false)
    | Except.ok _ =>
        ({ s with leads := s.leads.filter fun l => !decide (l.id = id) }, true)

/-! ## Helper lemmas -/

theorem lookupAssoc_setAssoc_self {κ α : Type} [DecidableEq κ]
    (l : List (κ × α)) (k : κ) (v : α) :
    lookupAssoc (setAssoc l k v) k = some v := by
  induction l with
  | nil => simp [setAssoc, lookupAssoc]
  | cons hd tl ih =>
    obtain ⟨k', v'⟩ := hd
    by_cases h : k' = k
    · subst h
      simp [setAssoc, lookupAssoc]
    · simp [setAssoc, lookupAssoc, h, ih]

/-- `getUserPermissions` in terms of the stored override: the override is
merged onto the baseline field by field. -/
theorem getUserPermissions_spec (m : UserPermissionsMap) (uid : String)
    (rt : ObjectType) :
    getUserPermissions m uid rt =
      match storedOverride m uid rt with
      | none => defaultPermissions
      | some p => spreadPerms defaultPermissions p := by
  unfold getUserPermissions storedOverride
  cases lookupAssoc m uid with
  | none => rfl
  | some t => cases lookupAssoc t rt <;> rfl

theorem storedOverride_eq_none_of_not_has (m : UserPermissionsMap)
    (uid : String) (rt : ObjectType) (h : hasStoredOverride m uid rt = false) :
    storedOverride m uid rt = none := by
  cases hs : storedOverride m uid rt with
  | none => rfl
  | some p =>
    rw [hasStoredOverride, hs] at h
    simp at h

/-! ## Claims about the permission engine -/

/-- Claim C5: for every resourceType, canRead, canEdit and canDelete return
false when no user is authenticated and true unconditionally when the
current user's role is admin, regardless of any stored override;
canManagePermissions() returns true iff the current user's role is admin. -/
theorem perm_unauthenticated_and_admin (m : UserPermissionsMap)
    (rt : ObjectType) :
    (canRead none m rt = false ∧ canEdit none m rt = false ∧
      canDelete none m rt = false) ∧
    (∀ u : User, u.role = Role.admin →
      canRead (some u) m rt = true ∧ canEdit (some u) m rt = true ∧
      canDelete (some u) m rt = true) ∧
    (∀ cu : Option User,
      canManagePermissions cu = true ↔ ∃ u, cu = some u ∧ u.role = Role.admin) := by
  refine ⟨⟨rfl, rfl, rfl⟩, ?_, ?_⟩
  · intro u h
    simp [canRead, canEdit, canDelete, isAdmin, h]
  · intro cu
    cases cu with
    | none => simp [canManagePermissions, isAdmin]
    | some u => simp [canManagePermissions, isAdmin]

def c5admin : User :=
  { id := "u1", name := "Ada", email := "ada@crm.test", role := Role.admin
    createdAt := "2024-01-01" }

theorem perm_unauthenticated_and_admin_witness :
    canRead (some c5admin) [] ObjectType.customers = true ∧
    canEdit (some c5admin) [] ObjectType.customers = true ∧
    canDelete (some c5admin) [] ObjectType.customers = true ∧
    canManagePermissions (some c5admin) = true := by
  have h := perm_unauthenticated_and_admin [] ObjectType.customers
  have hadm := h.2.1 c5admin rfl
  exact ⟨hadm.1, hadm.2.1, hadm.2.2,
    (h.2.2 (some c5admin)).2 ⟨c5admin, rfl, rfl⟩⟩

/-- Claim C6: an authenticated non-admin user with no stored override gets
canRead true and canEdit, canDelete, canAdd false; getUserPermissions
always yields all three fields, filling each field missing from the stored
override with the baseline read true, edit false, delete false. -/
theorem perm_nonadmin_defaults_and_merge :
    (∀ (u : User) (m : UserPermissionsMap) (rt : ObjectType),
      u.role ≠ Role.admin → hasStoredOverride m u.id rt = false →
      canRead (some u) m rt = true ∧ canEdit (some u) m rt = false ∧
      canDelete (some u) m rt = false ∧ canAdd (some u) m rt = false) ∧
    (∀ (m : UserPermissionsMap) (uid : String) (rt : ObjectType),
      getUserPermissions m uid rt =
        match storedOverride m uid rt with
        | none => { read := true, edit := false, delete := false }
        | some p =>
            { read := p.read?.getD true, edit := p.edit?.getD false
              delete := p.delete?.getD false }) := by
  constructor
  · intro u m rt hrole hov
    have hnone := storedOverride_eq_none_of_not_has m u.id rt hov
    have hperm : getUserPermissions m u.id rt = defaultPermissions := by
      rw [getUserPermissions_spec, hnone]
    simp [canRead, canEdit, canDelete, canAdd, isAdmin, hrole, hperm,
      defaultPermissions]
  · intro m uid rt
    rw [getUserPermissions_spec]
    cases storedOverride m uid rt with
    | none => rfl
    | some p => simp [spreadPerms, defaultPermissions]

def c6sales : User :=
  { id := "u2", name := "Sam", email := "sam@crm.test", role := Role.sales
    createdAt := "2024-01-02" }

theorem perm_nonadmin_defaults_and_merge_witness :
    canRead (some c6sales) [] ObjectType.products = true ∧
    canEdit (some c6sales) [] ObjectType.products = false ∧
    canDelete (some c6sales) [] ObjectType.products = false ∧
    canAdd (some c6sales) [] ObjectType.products = false := by
  have h := perm_nonadmin_defaults_and_merge.1 c6sales [] ObjectType.products
    (by decide) (by decide)
  exact h

/-- Claim C7: canAdd(resourceType) returns exactly the same value as
canEdit(resourceType) for every user, map and resourceType. -/
theorem canAdd_eq_canEdit (cu : Option User) (m : UserPermissionsMap)
    (rt : ObjectType) :
    canAdd cu m rt = canEdit cu m rt := rfl

/-- Claim C8: with an admin acting user and no prior stored override for
(u, rt), updateUserPermissions(u, rt, edit := true) followed by
getEffectivePermissions(u, rt) yields read true, edit true, delete false;
the override is created lazily for a target user with no override table. -/
theorem perm_update_roundtrip (cu : Option User) (m : UserPermissionsMap)
    (uid : String) (rt : ObjectType)
    (hadmin : isAdmin cu = true)
    (hnone : hasStoredOverride m uid rt = false) :
    getUserPermissions (updateUserPermissions cu m uid rt { edit? := some true })
      uid rt = { read := true, edit := true, delete := false } := by
  have hso := storedOverride_eq_none_of_not_has m uid rt hnone
  have hstored : lookupAssoc ((lookupAssoc m uid).getD []) rt = none := by
    rw [storedOverride] at hso
    cases hm : lookupAssoc m uid with
    | none => simp [lookupAssoc]
    | some t =>
      rw [hm] at hso
      simpa using hso
  rw [updateUserPermissions, if_pos hadmin, getUserPermissions,
    lookupAssoc_setAssoc_self]
  simp [lookupAssoc_setAssoc_self, hstored, spreadPerms, defaultPermissions,
    ObjectPermissions.toStored]

theorem perm_update_roundtrip_witness :
    getUserPermissions
      (updateUserPermissions (some c5admin) [] "u9" ObjectType.leads
        { edit? := some true }) "u9" ObjectType.leads =
      { read := true, edit := true, delete := false } :=
  perm_update_roundtrip (some c5admin) [] "u9" ObjectType.leads
    (by decide) (by decide)

/-! ## Conversion-workflow helper lemmas -/

/-- The update object `{ status: 'converted' }`. -/
def convertUpdate : LeadUpdate := { status? := some LeadStatus.converted }

/-- The Customer derived from a Lead on conversion. -/
def convCustomer (env : Env) (l : Lead) : Customer :=
  { id := toString env.nowMs, name := l.company
    status := CustomerStatus.active, leadId := some l.id
    createdAt := dateOnly env.nowIso
    lastModifiedBy := env.currentUserId, lastModifiedAt := some env.nowIso }

/-- The primary Contact derived from a Lead on conversion. -/
def convContact (env : Env) (l : Lead) : Contact :=
  { id := toString (env.nowMs + 1), customerId := toString env.nowMs
    name := l.name, email := l.email, phone := l.phone
    role := "Primary Contact"
    lastModifiedBy := env.currentUserId, lastModifiedAt := some env.nowIso }

/-- Local `updateLead` on the creating branch: the lead exists and no
customer references it yet. -/
theorem updateLead_local_create (env : Env) (s : DataState) (id : String)
    (l : Lead)
    (hfind : s.leads.find? (fun x => decide (x.id = id)) = some l)
    (hfree : isLinkedToCustomer s id = false) :
    updateLead_local env s id convertUpdate =
      { customers := s.customers ++ [convCustomer env l]
        contacts := s.contacts ++ [convContact env l]
        products := s.products
        models := s.models
        leads := s.leads.map fun x =>
          if x.id = id then
            applyLeadUpdate env.currentUserId env.nowIso x convertUpdate
          else x
        error := s.error } := by
  unfold updateLead_local
  rw [hfind]
  simp [hfree, convertUpdate, convCustomer, convContact]

/-- Local `updateLead` when a customer already references the lead:
only the merge onto the matching lead happens. -/
theorem updateLead_local_already (env : Env) (s : DataState) (id : String)
    (u : LeadUpdate) (h : isLinkedToCustomer s id = true) :
    updateLead_local env s id u =
      { s with leads := s.leads.map fun x =>
          if x.id = id then
            applyLeadUpdate env.currentUserId env.nowIso x u
          else x } := by
  unfold updateLead_local
  cases hf : s.leads.find? (fun x => decide (x.id = id)) <;> simp [h, hf]

/-! ## Claims about the conversion workflow and the state manager -/

/-- Claim C1: in local mode, converting a lead that no customer references
appends exactly one Customer (name = lead.company, status active,
leadId = lead.id) and exactly one Contact (customerId = new customer id,
name/email/phone from the lead, role "Primary Contact"), and sets the
lead's status to converted in the leads collection. -/
theorem updateLead_converts (env : Env) (s : DataState) (id : String)
    (l : Lead)
    (hfind : s.leads.find? (fun x => decide (x.id = id)) = some l)
    (hfree : isLinkedToCustomer s id = false) :
    (updateLead_local env s id convertUpdate).customers = s.customers ++
      [{ id := toString env.nowMs, name := l.company
         status := CustomerStatus.active, leadId := some l.id
         createdAt := dateOnly env.nowIso
         lastModifiedBy := env.currentUserId
         lastModifiedAt := some env.nowIso }] ∧
    (updateLead_local env s id convertUpdate).contacts = s.contacts ++
      [{ id := toString (env.nowMs + 1), customerId := toString env.nowMs
         name := l.name, email := l.email, phone := l.phone
         role := "Primary Contact"
         lastModifiedBy := env.currentUserId
         lastModifiedAt := some env.nowIso }] ∧
    (updateLead_local env s id convertUpdate).leads = s.leads.map
      (fun x => if x.id = id then
          applyLeadUpdate env.currentUserId env.nowIso x convertUpdate
        else x) ∧
    ∀ x ∈ (updateLead_local env s id convertUpdate).leads,
      x.id = id → x.status = LeadStatus.converted := by
  have h := updateLead_local_create env s id l hfind hfree
  rw [h]
  refine ⟨rfl, rfl, rfl, ?_⟩
  intro x hx hid
  simp only [List.mem_map] at hx
  obtain ⟨y, hy, rfl⟩ := hx
  by_cases hcase : y.id = id
  · simp [hcase, applyLeadUpdate, convertUpdate]
  · rw [if_neg hcase] at hid
    exact absurd hid hcase

def c1lead : Lead :=
  { id := "5", name := "Jo", email := "jo@acme.com", phone := "555-1"
    company := "Acme", status := LeadStatus.new, source := "referral"
    value := 1200, createdAt := "2024-01-03", createdBy := "u1" }

def c1s : DataState :=
  { customers := [], contacts := [], products := [], models := []
    leads := [c1lead], error := none }

def c1env : Env :=
  { nowMs := 1000, nowIso := "2024-02-03T10:00:00.000Z"
    currentUserId := some "u1" }

theorem updateLead_converts_witness :
    (updateLead_local c1env c1s "5" convertUpdate).customers =
      [{ id := "1000", name := "Acme", status := CustomerStatus.active
         leadId := some "5", createdAt := "2024-02-03"
         lastModifiedBy := some "u1"
         lastModifiedAt := some "2024-02-03T10:00:00.000Z" }] ∧
    (updateLead_local c1env c1s "5" convertUpdate).contacts =
      [{ id := "1001", customerId := "1000", name := "Jo"
         email := "jo@acme.com", phone := "555-1", role := "Primary Contact"
         lastModifiedBy := some "u1"
         lastModifiedAt := some "2024-02-03T10:00:00.000Z" }] := by
  have h := updateLead_converts c1env c1s "5" c1lead rfl rfl
  refine ⟨?_, ?_⟩
  · rw [h.1]
    decide
  · rw [h.2.1]
    decide

/-- Claim C2: converting the same lead twice (both calls carrying status
converted) leaves exactly one Customer with that leadId and exactly one
Contact with that Customer's id; and whenever a Customer already
references a lead, updateLead performs only the status-merge and creates
no records. -/
theorem updateLead_convert_idempotent (env1 env2 : Env) (s : DataState)
    (id : String) (l : Lead)
    (hfind : s.leads.find? (fun x => decide (x.id = id)) = some l)
    (hnone : s.customers.countP (fun c => decide (c.leadId = some id)) = 0)
    (hfresh : s.contacts.countP
      (fun k => decide (k.customerId = toString env1.nowMs)) = 0) :
    ((updateLead_local env2 (updateLead_local env1 s id convertUpdate) id
        convertUpdate).customers.countP
        (fun c => decide (c.leadId = some id)) = 1 ∧
      ∀ c ∈ (updateLead_local env2 (updateLead_local env1 s id convertUpdate)
          id convertUpdate).customers,
        c.leadId = some id →
        (updateLead_local env2 (updateLead_local env1 s id convertUpdate) id
            convertUpdate).contacts.countP
          (fun k => decide (k.customerId = c.id)) = 1) ∧
    (∀ (env : Env) (t : DataState) (i : String) (u : LeadUpdate),
      isLinkedToCustomer t i = true →
      (updateLead_local env t i u).customers = t.customers ∧
      (updateLead_local env t i u).contacts = t.contacts ∧
      (updateLead_local env t i u).leads = t.leads.map fun x =>
        if x.id = i then applyLeadUpdate env.currentUserId env.nowIso x u
        else x) := by
  have hid : l.id = id := by
    have := List.find?_some hfind
    simpa using this
  have hnoneMem : ∀ c ∈ s.customers, ¬(c.leadId = some id) := by
    intro c hc
    have := List.countP_eq_zero.mp hnone c hc
    simpa using this
  have hfree : isLinkedToCustomer s id = false := by
    rw [isLinkedToCustomer]
    cases hA : s.customers.any (fun c => decide (c.leadId = some id)) with
    | false => rfl
    | true =>
      obtain ⟨c, hc, hp⟩ := List.any_eq_true.mp hA
      exact absurd (of_decide_eq_true hp) (hnoneMem c hc)
  have h1 := updateLead_local_create env1 s id l hfind hfree
  have hlinked : isLinkedToCustomer (updateLead_local env1 s id convertUpdate)
      id = true := by
    rw [h1, isLinkedToCustomer]
    simp [List.any_append, convCustomer, hid]
  refine ⟨?_, ?_⟩
  · have h2 := updateLead_local_already env2
      (updateLead_local env1 s id convertUpdate) id convertUpdate hlinked
    rw [h2, h1]
    refine ⟨?_, ?_⟩
    · simp [List.countP_append, List.countP_cons, convCustomer, hid, hnone]
    · intro c hc hcid
      simp only [List.mem_append, List.mem_singleton] at hc
      rcases hc with hmem | rfl
      · exact absurd hcid (hnoneMem c hmem)
      · simp [List.countP_append, List.countP_cons, convContact, convCustomer,
          hfresh]
  · intro env t i u hlink
    rw [updateLead_local_already env t i u hlink]
    exact ⟨rfl, rfl, rfl⟩

def c2s : DataState :=
  { customers := [], contacts := [], products := [], models := []
    leads := [c1lead], error := none }

def c2env2 : Env :=
  { nowMs := 2000, nowIso := "2024-02-04T11:00:00.000Z"
    currentUserId := some "u1" }

theorem updateLead_convert_idempotent_witness :
    (updateLead_local c2env2 (updateLead_local c1env c2s "5" convertUpdate)
        "5" convertUpdate).customers.countP
      (fun c => decide (c.leadId = some "5")) = 1 := by
  have h := updateLead_convert_idempotent c1env c2env2 c2s "5" c1lead
    rfl rfl rfl
  exact h.1.1

/-- Claim C3: deleteLead(id) returns false, records the user-visible error
and leaves the leads collection unchanged whenever some Customer has
leadId = id; otherwise it returns true and removes exactly the lead with
that id. -/
theorem deleteLead_referential_protection (s : DataState) (id : String) :
    (isLinkedToCustomer s id = true →
      (deleteLead_local s id).2 = false ∧
      (deleteLead_local s id).1.leads = s.leads ∧
      (deleteLead_local s id).1.error =
        some "Cannot delete lead: it is linked to an existing customer") ∧
    (isLinkedToCustomer s id = false →
      (deleteLead_local s id).2 = true ∧
      ∀ l : Lead, l ∈ (deleteLead_local s id).1.leads ↔
        l ∈ s.leads ∧ l.id ≠ id) := by
  constructor
  · intro h
    simp [deleteLead_local, h]
  · intro h
    refine ⟨by simp [deleteLead_local, h], ?_⟩
    intro l
    simp [deleteLead_local, h, List.mem_filter]

def c3lead : Lead :=
  { id := "9", name := "Kim", email := "kim@b.test", phone := "555-2"
    company := "Bling", status := LeadStatus.converted, source := "web"
    value := 4, createdAt := "2024-01-05", createdBy := "u1" }

def c3cust : Customer :=
  { id := "77", name := "Bling", status := CustomerStatus.active
    leadId := some "9", createdAt := "2024-01-06" }

def c3sLinked : DataState :=
  { customers := [c3cust], contacts := [], products := [], models := []
    leads := [c3lead], error := none }

def c3sFree : DataState :=
  { customers := [], contacts := [], products := [], models := []
    leads := [c3lead], error := none }

theorem deleteLead_referential_protection_witness :
    ((deleteLead_local c3sLinked "9").2 = false ∧
      (deleteLead_local c3sLinked "9").1.leads = c3sLinked.leads) ∧
    (deleteLead_local c3sFree "9").2 = true := by
  have h1 := (deleteLead_referential_protection c3sLinked "9").1 (by decide)
  have h2 := (deleteLead_referential_protection c3sFree "9").2 (by decide)
  exact ⟨⟨h1.1, h1.2.1⟩, h2.1⟩

/-- Claim C4: deleteCustomer(id) removes exactly the Customers with that id
and exactly the Contacts with customerId = id, touching no other
collection; deleteProduct(id) symmetrically removes exactly the Products
with that id and the Models with productId = id. -/
theorem cascade_deletes (s : DataState) (cid pid : String) :
    (∀ c : Customer, c ∈ (deleteCustomer_local s cid).customers ↔
      c ∈ s.customers ∧ c.id ≠ cid) ∧
    (∀ k : Contact, k ∈ (deleteCustomer_local s cid).contacts ↔
      k ∈ s.contacts ∧ k.customerId ≠ cid) ∧
    (∀ p : Product, p ∈ (deleteProduct_local s pid).products ↔
      p ∈ s.products ∧ p.id ≠ pid) ∧
    (∀ m : Model, m ∈ (deleteProduct_local s pid).models ↔
      m ∈ s.models ∧ m.productId ≠ pid) ∧
    (deleteCustomer_local s cid).products = s.products ∧
    (deleteCustomer_local s cid).models = s.models ∧
    (deleteCustomer_local s cid).leads = s.leads ∧
    (deleteProduct_local s pid).customers = s.customers ∧
    (deleteProduct_local s pid).contacts = s.contacts ∧
    (deleteProduct_local s pid).leads = s.leads := by
  refine ⟨?_, ?_, ?_, ?_, rfl, rfl, rfl, rfl, rfl, rfl⟩ <;>
    intro x <;>
    simp [deleteCustomer_local, deleteProduct_local, List.mem_filter]

/-- Claim C10 (implicit): in local mode, updateLead on an id with no
matching lead — any update, converted status included — is a no-op: the
collections and the error slot are untouched. -/
theorem updateLead_missing_lead_frame (env : Env) (s : DataState)
    (id : String) (u : LeadUpdate)
    (h : s.leads.find? (fun l => decide (l.id = id)) = none) :
    updateLead_local env s id u = s := by
  have hall : ∀ l ∈ s.leads, ¬(l.id = id) := by
    intro l hl
    have := List.find?_eq_none.mp h l hl
    simpa using this
  unfold updateLead_local
  rw [h]
  have hmap : ∀ ls : List Lead, (∀ l ∈ ls, ¬(l.id = id)) →
      (ls.map fun l => if l.id = id then
        applyLeadUpdate env.currentUserId env.nowIso l u else l) = ls := by
    intro ls
    induction ls with
    | nil => intro _; rfl
    | cons a t ih =>
      intro hls
      rw [List.map_cons, if_neg (hls a (List.mem_cons_self a t)),
        ih (fun x hx => hls x (List.mem_cons_of_mem a hx))]
  simp only [hmap s.leads hall]

def c10s : DataState :=
  { customers := [], contacts := [], products := [], models := []
    leads := [c3lead], error := none }

theorem updateLead_missing_lead_frame_witness :
    updateLead_local c1env c10s "404" convertUpdate = c10s :=
  updateLead_missing_lead_frame c1env c10s "404" convertUpdate rfl

/-! ## Claim C9: remote-failure handling -/

def c9lead : Lead :=
  { id := "1", name := "Jo", email := "jo@acme.com", phone := "555-1"
    company := "Acme", status := LeadStatus.new, source := "web"
    value := 10, createdAt := "2024-01-01", createdBy := "u1" }

def c9leadUpd : Lead := { c9lead with status := LeadStatus.converted }

def c9s : DataState :=
  { customers := [], contacts := [], products := [], models := []
    leads := [c9lead], error := none }

def emptyCollections : Collections :=
  { customers := [], contacts := [], products := [], models := [], leads := [] }

/-- Counterexample to claim C9 as stated: when updateLead's remote update
succeeds and the subsequent remote customer-create call of the conversion
sequence fails, the leads collection has already been mutated, so the
failing operation does not leave the local collections unchanged. -/
theorem remote_failure_counterexample :
    (updateLead_remote c9s "1" convertUpdate false
        (Except.ok (some c9leadUpd)) (Except.ok emptyCollections)
        (Except.error "Network request failed") (Except.ok none)).error =
      some "Network request failed" ∧
    (updateLead_remote c9s "1" convertUpdate false
        (Except.ok (some c9leadUpd)) (Except.ok emptyCollections)
        (Except.error "Network request failed") (Except.ok none)).leads ≠
      c9s.leads := by
  constructor
  · rfl
  · decide

/-- Claim C9 (amended): every mutating remote operation records the thrown
message in the shared error slot (overwriting any prior one) instead of
throwing, and leaves all collections unchanged whenever its first remote
call fails; for updateLead's conversion sequence, a failure of a later
remote call still records the error, but the mutations already applied
for the earlier successful calls (the lead update, and the customer
append when the contact call is the one failing) remain in place. -/
theorem remote_failure_handling :
    (∀ (s : DataState) (m : String) (refetch : Except String Collections),
      addCustomer_remote s (Except.error m) refetch = { s with error := some m }) ∧
    (∀ (s : DataState) (i m : String),
      updateCustomer_remote s i (Except.error m) = { s with error := some m }) ∧
    (∀ (s : DataState) (i m : String),
      deleteCustomer_remote s i (Except.error m) = { s with error := some m }) ∧
    (∀ (s : DataState) (cid m : String) (refetch : Except String Collections),
      addContact_remote s cid (Except.error m) refetch = { s with error := some m }) ∧
    (∀ (s : DataState) (i m : String),
      updateContact_remote s i (Except.error m) = { s with error := some m }) ∧
    (∀ (s : DataState) (i m : String),
      deleteContact_remote s i (Except.error m) = { s with error := some m }) ∧
    (∀ (s : DataState) (m : String) (refetch : Except String Collections),
      addProduct_remote s (Except.error m) refetch = { s with error := some m }) ∧
    (∀ (s : DataState) (i m : String),
      updateProduct_remote s i (Except.error m) = { s with error := some m }) ∧
    (∀ (s : DataState) (i m : String),
      deleteProduct_remote s i (Except.error m) = { s with error := some m }) ∧
    (∀ (s : DataState) (m : String) (refetch : Except String Collections),
      addModel_remote s (Except.error m) refetch = { s with error := some m }) ∧
    (∀ (s : DataState) (i m : String),
      updateModel_remote s i (Except.error m) = { s with error := some m }) ∧
    (∀ (s : DataState) (i m : String),
      deleteModel_remote s i (Except.error m) = { s with error := some m }) ∧
    (∀ (s : DataState) (m : String),
      addLead_remote s (Except.error m) = { s with error := some m }) ∧
    (∀ (s : DataState) (i : String) (u : LeadUpdate) (neon : Bool)
        (refetch : Except String Collections)
        (custResp : Except String (Option Customer))
        (contResp : Except String (Option Contact)) (m : String),
      updateLead_remote s i u neon (Except.error m) refetch custResp contResp =
        { s with error := some m }) ∧
    (∀ (s : DataState) (i m : String),
      isLinkedToCustomer s i = false →
      deleteLead_remote s i (Except.error m) = ({ s with error := some m }, false)) ∧
    (∀ (s : DataState) (i : String) (u : LeadUpdate)
        (refetch : Except String Collections)
        (contResp : Except String (Option Contact)) (m : String)
        (updated : Lead) (l : Lead),
      u.status? = some LeadStatus.converted →
      s.leads.find? (fun x => decide (x.id = i)) = some l →
      isLinkedToCustomer s i = false →
      updateLead_remote s i u false (Except.ok (some updated)) refetch
          (Except.error m) contResp =
        { s with leads := s.leads.map fun x => if x.id = i then updated else x
                 error := some m }) ∧
    (∀ (s : DataState) (i : String) (u : LeadUpdate)
        (refetch : Except String Collections) (m : String)
        (updated : Lead) (l : Lead) (cust : Customer),
      u.status? = some LeadStatus.converted →
      s.leads.find? (fun x => decide (x.id = i)) = some l →
      isLinkedToCustomer s i = false →
      cust.id ≠ "" →
      updateLead_remote s i u false (Except.ok (some updated)) refetch
          (Except.ok (some cust)) (Except.error m) =
        { s with leads := s.leads.map fun x => if x.id = i then updated else x
                 customers := s.customers ++ [cust]
                 error := some m }) := by
  refine ⟨fun s m r => rfl, fun s i m => rfl, fun s i m => rfl,
    fun s c m r => rfl, fun s i m => rfl, fun s i m => rfl,
    fun s m r => rfl, fun s i m => rfl, fun s i m => rfl,
    fun s m r => rfl, fun s i m => rfl, fun s i m => rfl,
    fun s m => rfl, fun s i u n r c k m => rfl, ?_, ?_, ?_⟩
  · intro s i m hfree
    simp [deleteLead_remote, hfree]
  · intro s i u refetch contResp m updated l hst hfind hfree
    unfold updateLead_remote
    rw [hfind]
    simp [hst, hfree]
  · intro s i u refetch m updated l cust hst hfind hfree hcid
    unfold updateLead_remote
    rw [hfind]
    simp [hst, hfree, hcid]

def c9cust : Customer :=
  { id := "50", name := "Acme", status := CustomerStatus.active
    leadId := some "1", createdAt := "2024-01-02" }

theorem remote_failure_handling_witness :
    deleteLead_remote c9s "1" (Except.error "boom") =
      ({ c9s with error := some "boom" }, false) ∧
    updateLead_remote c9s "1" convertUpdate false (Except.ok (some c9leadUpd))
        (Except.ok emptyCollections) (Except.ok (some c9cust))
        (Except.error "boom") =
      { c9s with
          leads := c9s.leads.map fun x => if x.id = "1" then c9leadUpd else x
          customers := c9s.customers ++ [c9cust]
          error := some "boom" } := by
  have h := remote_failure_handling
  refine ⟨h.2.2.2.2.2.2.2.2.2.2.2.2.2.2.1 c9s "1" "boom" (by decide), ?_⟩
  exact h.2.2.2.2.2.2.2.2.2.2.2.2.2.2.2.2 c9s "1" convertUpdate
    (Except.ok emptyCollections) "boom" c9leadUpd c9lead c9cust
    rfl rfl (by decide) (by decide)

end Craftric
